import Mathlib

/-!
Shallow embedding of the step-up authentication core of the
MFA_proyect_validate backend (Node.js/Express + PostgreSQL).

Embedded source files:
- `src/client/backend/src/models/session.model.js` (the session store:
  `createLoginSession`, `getSessionByLoginId`, `markSessionCompleted`,
  `expireSession`);
- `src/client/backend/src/services/auth.service.js` (`stepUp`, `devStepUp`);
- `src/client/backend/src/services/conditionalAccess.service.js`
  (`getRequiredArcForResource`, `evaluateAccess`);
- `src/client/backend/src/services/token.service.js` (`signFinalToken`).

The `login_sessions` table is modelled as an association list keyed by
`login_id`; a SQL `UPDATE ... WHERE login_id = $1` is a map over the rows
touching exactly the matching keys, and `SELECT * FROM login_sessions WHERE
login_id = $1` / `rows[0]` is a first-match lookup.  JavaScript numbers for
biometric scores, thresholds and ARC levels are modelled as rationals; a
score claim that is not a JS number is `Option.none`.  Timestamps are
integers (milliseconds); `new Date(session.expires_at) < new Date()` is the
strict comparison `expires_at < now`.
-/

deriving instance DecidableEq for Except

namespace MFA

/-- Session status column: `'pending' | 'completed' | 'expired'`. -/
inductive Status
  | pending
  | completed
  | expired
  deriving DecidableEq, Repr, BEq

/-- One row of the `login_sessions` table (the columns the core reads or
writes; `temp_token` is stored at creation, `final_token` starts NULL). -/
structure Session where
  user_id : Nat
  nonce : String
  temp_token : String
  final_token : Option String
  status : Status
  created_at : Int
  expires_at : Int
  completed_at : Option Int
  deriving DecidableEq, Repr

/-- The `login_sessions` table, keyed by `login_id` (primary key in the
schema; the operations below do not themselves assume uniqueness). -/
abbrev Store := List (String × Session)

/-- `getSessionByLoginId` / the inline
`SELECT * FROM login_sessions WHERE login_id = $1` with `rows[0]`:
first row whose key matches. -/
def getSessionByLoginId (db : Store) (login_id : String) : Option Session :=
  (db.find? (fun p => p.1 == login_id)).map (fun p => p.2)

/-- `UPDATE login_sessions SET ... WHERE login_id = $1`: rewrite every row
whose key matches with the row transformer `f`, leave the rest alone. -/
def updateWhere (db : Store) (login_id : String) (f : Session → Session) : Store :=
  db.map (fun p => if p.1 == login_id then (p.1, f p.2) else p)

/-- `session.model.js` `markSessionCompleted(login_id, final_token)`:
`UPDATE login_sessions SET final_token = $1, status = 'completed',
completed_at = NOW() WHERE login_id = $2`.  There is no `AND status =
'pending'` condition and the function returns no row count. -/
def markSessionCompleted (db : Store) (login_id final_token : String) (now : Int) : Store :=
  updateWhere db login_id (fun s =>
    { s with final_token := some final_token, status := .completed, completed_at := some now })

/-- `session.model.js` `expireSession(login_id)`:
`UPDATE login_sessions SET status = 'expired' WHERE login_id = $1`
(unconditional; `final_token` and `completed_at` untouched). -/
def expireSession (db : Store) (login_id : String) : Store :=
  updateWhere db login_id (fun s => { s with status := .expired })

/-- `session.model.js` `createLoginSession` / the `INSERT INTO
login_sessions ... VALUES (..., 'pending', NOW(), $5)` in `login`:
a fresh pending row with NULL `final_token` and `completed_at`.  `login_id`
is the primary key, so an insert with an existing key raises and leaves the
table unchanged. -/
def createLoginSession (db : Store) (login_id : String) (user_id : Nat)
    (nonce temp_token : String) (now expires_at : Int) : Store :=
  if (getSessionByLoginId db login_id).isSome then db
  else db ++ [(login_id,
    { user_id := user_id, nonce := nonce, temp_token := temp_token,
      final_token := none, status := .pending, created_at := now,
      expires_at := expires_at, completed_at := none })]

/-- The verified assertion payload `stepUp` destructures:
`const { login_id: loginId, sub: userId, score, nonce } = payload`.
`score = some q` when `typeof score === 'number'`, `none` otherwise. -/
structure Assertion where
  login_id : String
  sub : Nat
  score : Option ℚ
  nonce : String
  deriving DecidableEq, Repr

/-- Error categories thrown by `stepUp` / `devStepUp`, in the order the
source checks them. -/
inductive StepUpError
  | DevOnlyForbidden     -- 'devStepUp only allowed in development' (403)
  | SessionNotFound      -- 'Login session not found' (400)
  | SessionNotPending    -- 'Login session not pending' (400)
  | NonceMismatch        -- 'Nonce mismatch' (400)
  | SessionExpired       -- 'Login session expired' (400)
  | BiometricScoreTooLow -- 'Biometric verification failed' (401)
  deriving DecidableEq, Repr

/-- `parseFloat(process.env.BIOMETRIC_SCORE_THRESHOLD || '0.85')`. -/
def defaultBiometricThreshold : ℚ := mkRat 85 100

/-- The read-and-check phase of `auth.service.js` `stepUp` (everything
between the `SELECT` and the audit insert): fetch the session, then in
source order check existence, `status !== 'pending'`, `nonce` mismatch,
`new Date(expires_at) < new Date()`, and
`typeof score !== 'number' || score < threshold`.
Returns the first error hit, or `none` when every check passes. -/
def stepUpChecks (db : Store) (a : Assertion) (now : Int) (threshold : ℚ) :
    Option StepUpError :=
  match getSessionByLoginId db a.login_id with
  | none => some .SessionNotFound
  | some session =>
    if session.status ≠ .pending then some .SessionNotPending
    else if session.nonce ≠ a.nonce then some .NonceMismatch
    else if session.expires_at < now then some .SessionExpired
    else
      match a.score with
      | none => some .BiometricScoreTooLow
      | some q => if q < threshold then some .BiometricScoreTooLow else none

/-- The inline completion `UPDATE` of `stepUp`:
`UPDATE login_sessions SET final_token = $1, status = 'completed' WHERE
login_id = $2` (note: unlike `markSessionCompleted` it does not set
`completed_at`). -/
def stepUpCompleteUpdate (db : Store) (login_id finalToken : String) : Store :=
  updateWhere db login_id (fun s =>
    { s with final_token := some finalToken, status := .completed })

/-- The write-and-return phase of `stepUp`: after the audit insert and
token minting, run the completion `UPDATE` and return the minted final
token.  The source has no conditional update and no failure branch here:
the token is returned whatever the session's status was at this point. -/
def stepUpFinish (db : Store) (login_id finalToken : String) : String × Store :=
  (finalToken, stepUpCompleteUpdate db login_id finalToken)

/-- `auth.service.js` `stepUp({signedAssertion})` after assertion-signature
verification, over the session table.  `finalToken` stands for the opaque
output of `TokenService.signFinalToken` minted in this call. -/
def stepUp (db : Store) (a : Assertion) (now : Int) (threshold : ℚ)
    (finalToken : String) : Except StepUpError (String × Store) :=
  match stepUpChecks db a now threshold with
  | some e => .error e
  | none => .ok (stepUpFinish db a.login_id finalToken)

/-- JS-number value a dev-mode `score` request field coerces to:
`num q` if `typeof score === 'number'`; otherwise the request value is fed
through `parseFloat`, yielding `nonNum (some q)` when it parses and
`nonNum none` when the result is `NaN`.  `missing` is `undefined`/`null`. -/
inductive DevScore
  | missing
  | num (q : ℚ)
  | nonNum (parsed : Option ℚ)
  deriving DecidableEq, Repr

/-- Dev-mode score simulation when none is supplied:
`Math.min(0.95, 0.70 + (pointCount / 100) * 0.25)`. -/
def simulatedScore (pointCount : Nat) : ℚ :=
  min (mkRat 95 100) (mkRat 70 100 + mkRat (pointCount : Int) 100 * mkRat 25 100)

/-- The value `score` holds in `devStepUp` when the threshold comparison
runs: a missing score is simulated from the normalized point count, a JS
number is kept, anything else goes through `parseFloat` (`none` = `NaN`). -/
def devCoerceScore (input : DevScore) (normalizedCount : Nat) : Option ℚ :=
  match input with
  | .missing => some (simulatedScore normalizedCount)
  | .num q => some q
  | .nonNum parsed => parsed

/-- JavaScript `score < threshold` where `score` may be `NaN`:
any comparison with `NaN` is `false`, so a `NaN` score is NOT below the
threshold and sails past the check. -/
def jsScoreBelow (score : Option ℚ) (threshold : ℚ) : Bool :=
  match score with
  | some q => decide (q < threshold)
  | none => false

/-- The point count `devStepUp` feeds into score simulation:
`normalizedPoints?.length || 0` where `normalizedPoints` is the BMFA
normalization result when available, else the supplied `stroke_points`. -/
def devNormalizedCount (strokeCount bmfaCount : Option Nat) : Nat :=
  match strokeCount with
  | none => 0
  | some c => bmfaCount.getD c

/-- `auth.service.js` `devStepUp` over the session table.
`env` is `process.env.NODE_ENV`; `strokeCount` is `stroke_points.length`
when a `stroke_points` array was supplied; `bmfaCount` is the normalized
point count when the BMFA collaborator answered (its HTTP call resolves to
`null` on any failure, falling back to the original points).  Checks in
source order: dev-environment gate, session existence, `status !==
'pending'`, expiry — there is no nonce check — then the score coercion and
`score < threshold`.  On success it completes the session via
`sessionModel.markSessionCompleted` (which sets `completed_at`). -/
def devStepUp (env : String) (db : Store) (login_id : String) (score : DevScore)
    (strokeCount : Option Nat) (bmfaCount : Option Nat) (now : Int)
    (threshold : ℚ) (finalToken : String) : Except StepUpError (String × Store) :=
  if env ≠ "development" then .error .DevOnlyForbidden
  else
    match getSessionByLoginId db login_id with
    | none => .error .SessionNotFound
    | some session =>
      if session.status ≠ .pending then .error .SessionNotPending
      else if session.expires_at < now then .error .SessionExpired
      else if jsScoreBelow (devCoerceScore score (devNormalizedCount strokeCount bmfaCount))
          threshold then
        .error .BiometricScoreTooLow
      else .ok (finalToken, markSessionCompleted db login_id finalToken now)

/-- `conditionalAccess.service.js` `getRequiredArcForResource`: look the
resource name up in the active policies (`acr_required` values modelled as
rationals; the source stringifies and re-parses them, an identity on
numeric values); `'0.5'` when no policy matches. -/
def getRequiredArcForResource (policies : List (String × ℚ)) (resourceName : String) : ℚ :=
  match (policies.find? (fun p => p.1 == resourceName)).map (fun p => p.2) with
  | some q => q
  | none => mkRat 1 2

/-- `conditionalAccess.service.js` `evaluateAccess(userArc, resourceName)`:
`allowed = userArcNum >= requiredArcNum`; returns `(allowed, requiredArc)`. -/
def evaluateAccess (policies : List (String × ℚ)) (userArc : ℚ)
    (resourceName : String) : Bool × ℚ :=
  let requiredArc := getRequiredArcForResource policies resourceName
  (decide (requiredArc ≤ userArc), requiredArc)

/-- Primitive JSON claim values appearing in the signed tokens. -/
inductive JPrim
  | pstr (s : String)
  | pnum (q : ℚ)
  | parr (a : List String)
  | pbool (b : Bool)
  deriving DecidableEq, Repr

/-- A JWT payload entry value: a primitive or a one-level object (the
`biometric` sub-claim). -/
inductive JVal
  | prim (p : JPrim)
  | obj (fields : List (String × JPrim))
  deriving DecidableEq, Repr

/-- JavaScript object-literal field lookup: in
`{ a: 1, ...custom }` a later duplicate key overwrites an earlier one, so
the effective value of a key is its LAST occurrence. -/
def jsGet (fields : List (String × JVal)) (k : String) : Option JVal :=
  (fields.reverse.find? (fun p => p.1 == k)).map (fun p => p.2)

/-- `token.service.js` `signFinalToken({userId, role, customClaims})`
payload: the fixed claims `iss` (default issuer `'LocalAzure'`), `sub`,
`role`, `arc: '1.0'`, `jti`, `aud: ['node-backend', 'flutter-app']`,
followed by the spread `...customClaims`, which therefore overrides any
fixed claim sharing a key. -/
def signFinalTokenPayload (userId role jti : String)
    (customClaims : List (String × JVal)) : List (String × JVal) :=
  [("iss", .prim (.pstr "LocalAzure")),
   ("sub", .prim (.pstr userId)),
   ("role", .prim (.pstr role)),
   ("arc", .prim (.pstr "1.0")),
   ("jti", .prim (.pstr jti)),
   ("aud", .prim (.parr ["node-backend", "flutter-app"]))]
  ++ customClaims

/-- The `customClaims` the production `stepUp` passes to `signFinalToken`:
validation linkage and the biometric proof sub-claim (no `arc` override). -/
def prodFinalCustomClaims (validationId verifiedAt : String) (score : ℚ) :
    List (String × JVal) :=
  [("validation_id", .prim (.pstr validationId)),
   ("biometric", .obj
     [("verified_at", .pstr verifiedAt),
      ("score", .pnum score),
      ("method", .pstr "cloud-scoring")])]

/-- The `customClaims` `devStepUp` passes to `signFinalToken`: an explicit
`arc: '2'` and `amr` on top of the validation linkage and biometric proof. -/
def devFinalCustomClaims (validationId verifiedAt : String)
    (score confidence : ℚ) (strokeCount : Option Nat) : List (String × JVal) :=
  [("arc", .prim (.pstr "2")),
   ("amr", .prim (.parr ["pwd", "bio"])),
   ("validation_id", .prim (.pstr validationId)),
   ("biometric", .obj
     ([("verified_at", .pstr verifiedAt),
       ("score", .pnum score),
       ("confidence", .pnum confidence)]
      ++ (match strokeCount with
          | some c => [("stroke_count", .pnum (c : ℚ))]
          | none => [])
      ++ [("method", .pstr "dev-simulated")]))]

/-! ### Operation sequences over the session store (for the
`final_credential` / `status` invariant) -/

/-- The operations the spec's invariant quantifies over: session creation,
step-up attempts (which mutate the table only on success), and opportunistic
expiry marking. -/
inductive StoreOp
  | create (login_id : String) (user_id : Nat) (nonce temp_token : String)
      (now expires_at : Int)
  | stepUpAttempt (a : Assertion) (now : Int) (threshold : ℚ) (finalToken : String)
  | expire (login_id : String)

/-- Effect of one operation on the table (a failed step-up attempt throws
before its `UPDATE`, leaving the table unchanged). -/
def applyOp (db : Store) : StoreOp → Store
  | .create id uid nonce temp now exp => createLoginSession db id uid nonce temp now exp
  | .stepUpAttempt a now thr tok =>
    match stepUp db a now thr tok with
    | .ok (_, db') => db'
    | .error _ => db
  | .expire id => expireSession db id

def applyOps (db : Store) : List StoreOp → Store
  | [] => db
  | op :: rest => applyOps (applyOp db op) rest

/-- The spec invariant on one row: `final_credential != null` iff
`status == completed`. -/
def credInvRow (s : Session) : Bool :=
  s.final_token.isSome == (s.status == Status.completed)

/-- The spec invariant over the whole table. -/
def credInv (db : Store) : Bool :=
  db.all (fun p => credInvRow p.2)

/-- Guard for expiry marking: no completed row carries the target
`login_id` (lazy expiry as the spec intends it is only ever applied to
still-pending sessions). -/
def expireSafe (db : Store) (id : String) : Bool :=
  db.all (fun p => !(p.1 == id && p.2.status == Status.completed))

/-- An operation sequence in which every expiry marking respects
`expireSafe` at the moment it runs. -/
def goodSeq (db : Store) : List StoreOp → Bool
  | [] => true
  | op :: rest =>
    (match op with
     | .expire id => expireSafe db id
     | _ => true) && goodSeq (applyOp db op) rest

/-- Projection of a step-up outcome onto the caller-visible accept/reject
decision (the returned credential or the error category), discarding the
store. -/
def stepDecision (r : Except StepUpError (String × Store)) : Except StepUpError String :=
  r.map Prod.fst

/-! ### Concrete fixtures used by the witnesses and counterexamples -/

/-- A pending session created at `t = 0` with the default 120 second TTL
(scenario A of the spec: `user_id = 42`). -/
def samplePending : Session :=
  { user_id := 42, nonce := "nonce-1", temp_token := "temp-1", final_token := none,
    status := .pending, created_at := 0, expires_at := 120, completed_at := none }

/-- The same session already completed with a stored final credential. -/
def sampleCompleted : Session :=
  { samplePending with
    status := .completed,
    final_token := some "tokF",
    completed_at := some 30 }

/-- The same session already marked expired (no credential stored). -/
def sampleExpired : Session :=
  { samplePending with status := .expired }

/-- A verified assertion matching `samplePending` with score `0.9`. -/
def sampleAssertion : Assertion :=
  { login_id := "L", sub := 42, score := some (mkRat 9 10), nonce := "nonce-1" }

/-- A second valid, distinct assertion for the same session (score `0.95`). -/
def sampleAssertion2 : Assertion :=
  { login_id := "L", sub := 42, score := some (mkRat 95 100), nonce := "nonce-1" }

/-- A high-scoring assertion whose nonce does not match `samplePending`. -/
def mismatchedNonceAssertion : Assertion :=
  { login_id := "L", sub := 42, score := some (mkRat 9 10), nonce := "nonce-2" }

/-- An assertion whose score claim is not a JS number. -/
def nonNumericScoreAssertion : Assertion :=
  { login_id := "L", sub := 42, score := none, nonce := "nonce-1" }

/-- A below-threshold assertion (score `0.6`, scenario B of the spec). -/
def lowScoreAssertion : Assertion :=
  { login_id := "L", sub := 42, score := some (mkRat 6 10), nonce := "nonce-1" }

/-- Create a session, complete it through a successful step-up, then mark
it expired: the sequence breaking the credential/status invariant. -/
def expireAfterCompleteOps : List StoreOp :=
  [.create "L" 42 "nonce-1" "temp-1" 0 120,
   .stepUpAttempt sampleAssertion 10 (mkRat 85 100) "tokF",
   .expire "L"]

/-- Create a session and mark it expired while still pending: a sequence in
which every expiry marking hits a non-completed session. -/
def expireWhilePendingOps : List StoreOp :=
  [.create "L" 42 "nonce-1" "temp-1" 0 120,
   .expire "L"]

/-! ### Store lemmas -/

theorem getSession_updateWhere_self (db : Store) (id : String) (f : Session → Session) :
    getSessionByLoginId (updateWhere db id f) id = (getSessionByLoginId db id).map f := by
  induction db with
  | nil => rfl
  | cons p rest ih =>
    cases hb : (p.1 == id) with
    | true =>
      simp [getSessionByLoginId, updateWhere, List.find?, hb]
    | false =>
      simpa [getSessionByLoginId, updateWhere, List.find?, hb] using ih

theorem getSession_updateWhere_other (db : Store) (id id' : String)
    (f : Session → Session) (hne : id' ≠ id) :
    getSessionByLoginId (updateWhere db id f) id' = getSessionByLoginId db id' := by
  induction db with
  | nil => rfl
  | cons p rest ih =>
    cases hb : (p.1 == id) with
    | true =>
      have hk : p.1 = id := by simpa using hb
      have hb' : (p.1 == id') = false := by
        simp [hk]
        exact fun h => hne h.symm
      simp [getSessionByLoginId, updateWhere, List.find?, hb, hb'] at ih ⊢
      exact ih
    | false =>
      cases hb' : (p.1 == id') with
      | true => simp [getSessionByLoginId, updateWhere, List.find?, hb, hb']
      | false =>
        simp [getSessionByLoginId, updateWhere, List.find?, hb, hb'] at ih ⊢
        exact ih

/-- Inversion of a fully successful check phase of `stepUp`. -/
theorem stepUpChecks_none_iff (db : Store) (a : Assertion) (now : Int) (threshold : ℚ) :
    stepUpChecks db a now threshold = none ↔
      ∃ s, getSessionByLoginId db a.login_id = some s ∧ s.status = .pending ∧
        s.nonce = a.nonce ∧ ¬ s.expires_at < now ∧
        ∃ q, a.score = some q ∧ ¬ q < threshold := by
  unfold stepUpChecks
  cases hs : getSessionByLoginId db a.login_id with
  | none => simp
  | some s =>
    cases hq : a.score with
    | none =>
      by_cases h1 : s.status = Status.pending <;>
        by_cases h2 : s.nonce = a.nonce <;>
          by_cases h3 : s.expires_at < now <;>
            simp [h1, h2, h3]
    | some q =>
      by_cases h1 : s.status = Status.pending <;>
        by_cases h2 : s.nonce = a.nonce <;>
          by_cases h3 : s.expires_at < now <;>
            by_cases h4 : q < threshold <;>
              simp [h1, h2, h3, h4]
      exact ⟨not_lt.mp h3, not_lt.mp h4⟩

/-- Inversion of a successful `stepUp`: the checks all passed, the result
token is the minted one, and the store result is the completion update. -/
theorem stepUp_ok_iff (db : Store) (a : Assertion) (now : Int) (threshold : ℚ)
    (finalToken res : String) (db' : Store) :
    stepUp db a now threshold finalToken = .ok (res, db') ↔
      stepUpChecks db a now threshold = none ∧ res = finalToken ∧
        db' = stepUpCompleteUpdate db a.login_id finalToken := by
  unfold stepUp stepUpFinish
  cases h : stepUpChecks db a now threshold with
  | none => simp [eq_comm, and_comm]
  | some e => simp

/-- Inversion of a successful `devStepUp`: only the development
environment reaches the session logic, the session was observed pending
and unexpired, the minted token is returned, and the store result is
`markSessionCompleted`. -/
theorem devStepUp_ok_inv (env : String) (db : Store) (id : String) (sc : DevScore)
    (stc bmc : Option Nat) (now : Int) (thr : ℚ) (tok res : String) (db' : Store)
    (h : devStepUp env db id sc stc bmc now thr tok = .ok (res, db')) :
    env = "development" ∧ ∃ s, getSessionByLoginId db id = some s ∧
      s.status = .pending ∧ ¬ s.expires_at < now ∧ res = tok ∧
      db' = markSessionCompleted db id tok now := by
  unfold devStepUp at h
  by_cases he : env = "development"
  · cases hs : getSessionByLoginId db id with
    | none => simp [he, hs] at h
    | some s =>
      by_cases h1 : s.status = Status.pending
      · by_cases h2 : s.expires_at < now
        · simp [he, hs, h1, h2] at h
        · by_cases h3 : jsScoreBelow (devCoerceScore sc (devNormalizedCount stc bmc)) thr = true
          · simp [he, hs, h1, h2, h3] at h
          · simp [he, hs, h1, h2, h3] at h
            obtain ⟨h4, h5⟩ := h
            exact ⟨he, s, rfl, h1, h2, h4.symm, h5.symm⟩
      · simp [he, hs, h1] at h
  · simp [he] at h

theorem credInv_createLoginSession (db : Store) (id : String) (uid : Nat)
    (nonce temp : String) (now exp : Int) (h : credInv db = true) :
    credInv (createLoginSession db id uid nonce temp now exp) = true := by
  unfold createLoginSession
  by_cases hp : (getSessionByLoginId db id).isSome
  · simpa [hp] using h
  · rw [if_neg hp]
    simp only [credInv, List.all_eq_true] at h ⊢
    intro p hp'
    rcases List.mem_append.mp hp' with hmem | hmem
    · exact h p hmem
    · rw [List.mem_singleton.mp hmem]
      rfl

theorem credInv_updateWhere (db : Store) (id : String) (f : Session → Session)
    (hf : ∀ p, p ∈ db → p.1 = id → credInvRow (f p.2) = true)
    (h : credInv db = true) : credInv (updateWhere db id f) = true := by
  simp only [credInv, updateWhere, List.all_map, List.all_eq_true, Function.comp] at h ⊢
  intro p hp
  by_cases hk : p.1 = id
  · simpa [hk] using hf p hp hk
  · simpa [hk] using h p hp

theorem credInv_markSessionCompleted (db : Store) (id tok : String) (now : Int)
    (h : credInv db = true) : credInv (markSessionCompleted db id tok now) = true :=
  credInv_updateWhere db id _ (fun _ _ _ => rfl) h

theorem credInv_stepUpCompleteUpdate (db : Store) (id tok : String)
    (h : credInv db = true) : credInv (stepUpCompleteUpdate db id tok) = true :=
  credInv_updateWhere db id _ (fun _ _ _ => rfl) h

theorem credInv_expireSession (db : Store) (id : String)
    (h : credInv db = true) (hsafe : expireSafe db id = true) :
    credInv (expireSession db id) = true := by
  refine credInv_updateWhere db id _ (fun p hp hk => ?_) h
  simp only [expireSafe, List.all_eq_true] at hsafe
  have hnc : (p.2.status == Status.completed) = false := by
    have := hsafe p hp
    simpa [hk] using this
  have hrow : credInvRow p.2 = true := by
    simp only [credInv, List.all_eq_true] at h
    exact h p hp
  have hft : p.2.final_token.isSome = false := by
    simp only [credInvRow, hnc] at hrow
    simpa using hrow
  simp [credInvRow, hft]
  rfl

theorem credInv_applyOp (db : Store) (op : StoreOp) (h : credInv db = true)
    (hop : (match op with | .expire id => expireSafe db id | _ => true) = true) :
    credInv (applyOp db op) = true := by
  cases op with
  | create id uid nonce temp now exp => exact credInv_createLoginSession db id uid nonce temp now exp h
  | stepUpAttempt a now thr tok =>
    simp only [applyOp]
    cases hs : stepUp db a now thr tok with
    | error e => exact h
    | ok r =>
      obtain ⟨res, db'⟩ := r
      obtain ⟨-, -, rfl⟩ := (stepUp_ok_iff db a now thr tok res db').mp hs
      exact credInv_stepUpCompleteUpdate db a.login_id tok h
  | expire id => exact credInv_expireSession db id h hop

/-! ### Claim C1: conditional (at-most-once) session completion -/

/-- C1 (counterexample): the claim says the session-completion operation
mutates only a `pending` session and performs no mutation otherwise.  In
the code the completion `UPDATE` has no status condition: applied to an
already-expired (non-pending) session it still mutates it, overwriting the
row to `completed` with the new credential and completion time. -/
theorem c1_counterexample :
    sampleExpired.status ≠ .pending ∧
    markSessionCompleted [("L", sampleExpired)] "L" "tok2" 130 ≠ [("L", sampleExpired)] ∧
    getSessionByLoginId (markSessionCompleted [("L", sampleExpired)] "L" "tok2" 130) "L"
      = some { sampleExpired with
               final_token := some "tok2",
               status := .completed,
               completed_at := some 130 } := by
  decide

/-- C1 (amended): `markSessionCompleted` unconditionally transitions the
matched session to `completed`, storing `final_token` and `completed_at`,
regardless of the session's previous status; it returns no success
indicator, so at-most-once completion is not enforced by the store. -/
theorem c1_completion_unconditional (db : Store) (id tok : String) (now : Int)
    (s : Session) (h : getSessionByLoginId db id = some s) :
    getSessionByLoginId (markSessionCompleted db id tok now) id
      = some { s with
               final_token := some tok,
               status := .completed,
               completed_at := some now } := by
  unfold markSessionCompleted
  rw [getSession_updateWhere_self, h]
  rfl

/-- Witness for C1 at a concrete non-pending (expired) session. -/
theorem c1_completion_unconditional_witness :
    getSessionByLoginId (markSessionCompleted [("L", sampleExpired)] "L" "tok2" 130) "L"
      = some { sampleExpired with
               final_token := some "tok2",
               status := .completed,
               completed_at := some 130 } :=
  c1_completion_unconditional [("L", sampleExpired)] "L" "tok2" 130 sampleExpired (by decide)

/-! ### Claim C2: monotonic status transitions -/

/-- C2 (counterexample): status is not monotonic under every store
operation: `expireSession` applied to an already-completed session
performs the forbidden `completed → expired` transition. -/
theorem c2_counterexample :
    (getSessionByLoginId [("L", sampleCompleted)] "L").map Session.status
      = some .completed ∧
    (getSessionByLoginId (expireSession [("L", sampleCompleted)] "L") "L").map Session.status
      = some .expired := by
  decide

/-- C2 (amended): the decision-engine paths are monotonic — a successful
`stepUp` or `devStepUp` only moves a session it observed `pending` to
`completed` and leaves every other `login_id` unchanged, and failures
mutate nothing — but the bare store operations (`markSessionCompleted`,
`expireSession`) are unguarded and do not themselves enforce
monotonicity. -/
theorem c2_engine_monotonic :
    (∀ db a now thr tok res db', stepUp db a now thr tok = .ok (res, db') →
      (∃ s, getSessionByLoginId db a.login_id = some s ∧ s.status = .pending ∧
        getSessionByLoginId db' a.login_id
          = some { s with status := .completed, final_token := some tok }) ∧
      ∀ id, id ≠ a.login_id → getSessionByLoginId db' id = getSessionByLoginId db id) ∧
    (∀ env db id sc stc bmc now thr tok res db',
      devStepUp env db id sc stc bmc now thr tok = .ok (res, db') →
      (∃ s, getSessionByLoginId db id = some s ∧ s.status = .pending ∧
        getSessionByLoginId db' id
          = some { s with
                   status := .completed,
                   final_token := some tok,
                   completed_at := some now }) ∧
      ∀ id', id' ≠ id → getSessionByLoginId db' id' = getSessionByLoginId db id') := by
  constructor
  · intro db a now thr tok res db' h
    obtain ⟨hchecks, -, rfl⟩ := (stepUp_ok_iff db a now thr tok res db').mp h
    obtain ⟨s, hs, hpend, -, -, -⟩ := (stepUpChecks_none_iff db a now thr).mp hchecks
    refine ⟨⟨s, hs, hpend, ?_⟩, ?_⟩
    · unfold stepUpCompleteUpdate
      rw [getSession_updateWhere_self, hs]
      rfl
    · intro id hid
      unfold stepUpCompleteUpdate
      exact getSession_updateWhere_other db a.login_id id _ hid
  · intro env db id sc stc bmc now thr tok res db' h
    obtain ⟨-, s, hs, hpend, -, -, rfl⟩ :=
      devStepUp_ok_inv env db id sc stc bmc now thr tok res db' h
    refine ⟨⟨s, hs, hpend, ?_⟩, ?_⟩
    · unfold markSessionCompleted
      rw [getSession_updateWhere_self, hs]
      rfl
    · intro id' hid
      unfold markSessionCompleted
      exact getSession_updateWhere_other db id id' _ hid

/-- Witness for C2: concrete successful production and dev step-ups. -/
theorem c2_engine_monotonic_witness :
    ((∃ s, getSessionByLoginId [("L", samplePending)] "L" = some s ∧
        s.status = .pending ∧
        getSessionByLoginId (stepUpCompleteUpdate [("L", samplePending)] "L" "tokF") "L"
          = some { s with status := .completed, final_token := some "tokF" }) ∧
      ∀ id, id ≠ "L" →
        getSessionByLoginId (stepUpCompleteUpdate [("L", samplePending)] "L" "tokF") id
          = getSessionByLoginId [("L", samplePending)] id) ∧
    ((∃ s, getSessionByLoginId [("L", samplePending)] "L" = some s ∧
        s.status = .pending ∧
        getSessionByLoginId (markSessionCompleted [("L", samplePending)] "L" "tokF" 10) "L"
          = some { s with
                   status := .completed,
                   final_token := some "tokF",
                   completed_at := some 10 }) ∧
      ∀ id', id' ≠ "L" →
        getSessionByLoginId (markSessionCompleted [("L", samplePending)] "L" "tokF" 10) id'
          = getSessionByLoginId [("L", samplePending)] id') :=
  ⟨c2_engine_monotonic.1 [("L", samplePending)] sampleAssertion 10 (mkRat 85 100) "tokF"
      "tokF" (stepUpCompleteUpdate [("L", samplePending)] "L" "tokF") (by decide),
   c2_engine_monotonic.2 "development" [("L", samplePending)] "L" (.num (mkRat 9 10)) none
      none 10 (mkRat 85 100) "tokF" "tokF"
      (markSessionCompleted [("L", samplePending)] "L" "tokF" 10) (by decide)⟩

/-! ### Claim C3: losing the completion race fails with SessionNotPending -/

/-- C3 (counterexample): two valid assertions for one pending session model
two concurrent step-up calls.  Both check phases pass against the initial
table; the first write phase completes the session; the second write phase
— running when the session is no longer pending — still returns its own
minted credential (and silently overwrites the stored one) instead of
discarding it and failing with `SessionNotPending`. -/
theorem c3_counterexample :
    stepUpChecks [("L", samplePending)] sampleAssertion 10 (mkRat 85 100) = none ∧
    stepUpChecks [("L", samplePending)] sampleAssertion2 10 (mkRat 85 100) = none ∧
    (getSessionByLoginId (stepUpFinish [("L", samplePending)] "L" "tokA").2 "L").map
      Session.status = some .completed ∧
    stepUpFinish (stepUpFinish [("L", samplePending)] "L" "tokA").2 "L" "tokB"
      = ("tokB",
         [("L", { samplePending with status := .completed, final_token := some "tokB" })]) := by
  decide

/-- C3 (amended): the session transition of `stepUp` is an unconditional
`UPDATE` with no failure branch: once the pre-checks have passed, the
minted credential is stored and returned to the caller even when the
session is not pending at transition time (a concurrent completer is
overwritten, not reported as `SessionNotPending`). -/
theorem c3_finish_always_returns (db : Store) (id tok : String) (s : Session)
    (h : getSessionByLoginId db id = some s) :
    (stepUpFinish db id tok).1 = tok ∧
    getSessionByLoginId (stepUpFinish db id tok).2 id
      = some { s with status := .completed, final_token := some tok } := by
  refine ⟨rfl, ?_⟩
  unfold stepUpFinish stepUpCompleteUpdate
  rw [getSession_updateWhere_self, h]
  rfl

/-- Witness for C3 at a concrete already-completed session. -/
theorem c3_finish_always_returns_witness :
    (stepUpFinish [("L", sampleCompleted)] "L" "tokB").1 = "tokB" ∧
    getSessionByLoginId (stepUpFinish [("L", sampleCompleted)] "L" "tokB").2 "L"
      = some { sampleCompleted with status := .completed, final_token := some "tokB" } :=
  c3_finish_always_returns [("L", sampleCompleted)] "L" "tokB" sampleCompleted (by decide)

/-! ### Claim C4: final_credential non-null iff status completed -/

/-- C4 (counterexample): after create → successful step-up → expiry
marking, the session holds a non-null `final_credential` while its status
is `expired`, violating the claimed invariant over arbitrary operation
sequences. -/
theorem c4_counterexample :
    (getSessionByLoginId (applyOps [] expireAfterCompleteOps) "L").map Session.status
      = some .expired ∧
    (getSessionByLoginId (applyOps [] expireAfterCompleteOps) "L").map Session.final_token
      = some (some "tokF") ∧
    credInv (applyOps [] expireAfterCompleteOps) = false := by
  decide

/-- C4 (amended): `final_credential != null ↔ status = completed` is
preserved by every sequence of creations, step-up attempts and expiry
markings in which expiry marking is only ever applied while the target
session is not completed; `expireSession` on a completed session is the
sole violation (it keeps the stored credential while leaving `completed`). -/
theorem c4_invariant_guarded (ops : List StoreOp) (db : Store)
    (h : credInv db = true) (hg : goodSeq db ops = true) :
    credInv (applyOps db ops) = true := by
  induction ops generalizing db with
  | nil => exact h
  | cons op rest ih =>
    simp only [goodSeq, Bool.and_eq_true] at hg
    exact ih (applyOp db op) (credInv_applyOp db op h hg.1) hg.2

/-- Witness for C4 on a concrete guarded sequence starting from the empty
table. -/
theorem c4_invariant_guarded_witness :
    credInv ([] : Store) = true ∧ goodSeq [] expireWhilePendingOps = true ∧
    credInv (applyOps [] expireWhilePendingOps) = true :=
  ⟨by decide, by decide, c4_invariant_guarded expireWhilePendingOps [] (by decide) (by decide)⟩

/-! ### Claim C5: dev shortcut path equivalence and fail-closed gating -/

/-- C5 (counterexample): the dev path does not follow the identical
session-state logic from step 2 onward — it performs no nonce check at
all.  For the same pending session and the same score `0.9`, the
production path rejects an assertion carrying the wrong nonce with
`NonceMismatch`, while the dev path accepts and completes the session. -/
theorem c5_counterexample :
    samplePending.nonce ≠ mismatchedNonceAssertion.nonce ∧
    stepUp [("L", samplePending)] mismatchedNonceAssertion 10 (mkRat 85 100) "tokF"
      = .error .NonceMismatch ∧
    devStepUp "development" [("L", samplePending)] "L" (.num (mkRat 9 10)) none none 10
      (mkRat 85 100) "tokF"
      = .ok ("tokF", markSessionCompleted [("L", samplePending)] "L" "tokF" 10) := by
  decide

/-- C5 (amended): outside a `development` environment `devStepUp` fails
closed with `DevOnlyForbidden` before touching any session state; and for
a locally supplied numeric score it produces the same caller-visible
accept/reject decision as the production `stepUp` run on an assertion
whose nonce matches the stored session — the existence, pending-status,
expiry and threshold logic coincide — but it performs no nonce check of
its own (and a non-numeric supplied score is coerced through `parseFloat`
rather than rejected). -/
theorem c5_dev_path_agreement :
    (∀ env db id sc stc bmc now thr tok, env ≠ "development" →
      devStepUp env db id sc stc bmc now thr tok = .error .DevOnlyForbidden) ∧
    (∀ db id now thr q tok stc bmc u,
      stepDecision (devStepUp "development" db id (.num q) stc bmc now thr tok)
        = stepDecision (stepUp db
            { login_id := id, sub := u, score := some q,
              nonce := ((getSessionByLoginId db id).map Session.nonce).getD "" }
            now thr tok)) := by
  constructor
  · intro env db id sc stc bmc now thr tok he
    unfold devStepUp
    rw [if_pos he]
  · intro db id now thr q tok stc bmc u
    cases hs : getSessionByLoginId db id with
    | none =>
      simp [devStepUp, stepUp, stepUpChecks, stepDecision, hs, Except.map]
    | some s =>
      by_cases h1 : s.status = Status.pending
      · by_cases h2 : s.expires_at < now
        · simp [devStepUp, stepUp, stepUpChecks, stepDecision, hs, h1, h2, Except.map]
        · by_cases h4 : q < thr
          · simp [devStepUp, stepUp, stepUpChecks, stepDecision, hs, h1, h2, h4,
              jsScoreBelow, devCoerceScore, Except.map]
          · simp [devStepUp, stepUp, stepUpChecks, stepUpFinish, stepDecision, hs, h1, h2,
              h4, jsScoreBelow, devCoerceScore, Except.map]
      · simp [devStepUp, stepUp, stepUpChecks, stepDecision, hs, h1, Except.map]

/-- Witness for C5: the fail-closed gate at a concrete production call,
and the decision agreement at a concrete session. -/
theorem c5_dev_path_agreement_witness :
    devStepUp "production" [("L", samplePending)] "L" (.num (mkRat 9 10)) none none 10
      (mkRat 85 100) "tokF" = .error .DevOnlyForbidden ∧
    stepDecision (devStepUp "development" [("L", samplePending)] "L" (.num (mkRat 9 10))
        none none 10 (mkRat 85 100) "tokF")
      = stepDecision (stepUp [("L", samplePending)]
          { login_id := "L", sub := 42, score := some (mkRat 9 10),
            nonce := ((getSessionByLoginId [("L", samplePending)] "L").map
              Session.nonce).getD "" }
          10 (mkRat 85 100) "tokF") :=
  ⟨c5_dev_path_agreement.1 "production" [("L", samplePending)] "L" (.num (mkRat 9 10))
      none none 10 (mkRat 85 100) "tokF" (by decide),
   c5_dev_path_agreement.2 [("L", samplePending)] "L" 10 (mkRat 85 100) (mkRat 9 10)
      "tokF" none none 42⟩

/-! ### Claim C6: nonce mismatch always rejected with NonceMismatch -/

/-- C6 (counterexample): the claim quantifies over every session, but for a
non-pending (already completed) session a high-scoring assertion with a
mismatched nonce is rejected with `SessionNotPending`, not `NonceMismatch`
(the status check runs before the nonce check). -/
theorem c6_counterexample :
    sampleCompleted.nonce ≠ mismatchedNonceAssertion.nonce ∧
    mismatchedNonceAssertion.score = some (mkRat 9 10) ∧
    defaultBiometricThreshold ≤ mkRat 9 10 ∧
    stepUp [("L", sampleCompleted)] mismatchedNonceAssertion 10 defaultBiometricThreshold
      "tokF" = .error .SessionNotPending ∧
    StepUpError.SessionNotPending ≠ StepUpError.NonceMismatch := by
  decide

/-- C6 (amended): for every existing PENDING session, a verified assertion
whose nonce differs from the stored nonce is rejected with
`NonceMismatch`, whatever the score (and even if the session is also past
expiry, since the nonce check precedes the expiry check). -/
theorem c6_nonce_mismatch_rejected (db : Store) (a : Assertion) (now : Int)
    (thr : ℚ) (tok : String) (s : Session)
    (h1 : getSessionByLoginId db a.login_id = some s) (h2 : s.status = .pending)
    (h3 : s.nonce ≠ a.nonce) :
    stepUp db a now thr tok = .error .NonceMismatch := by
  simp [stepUp, stepUpChecks, h1, h2, h3]

/-- Witness for C6 at a concrete pending session and wrong-nonce,
high-score assertion. -/
theorem c6_nonce_mismatch_rejected_witness :
    stepUp [("L", samplePending)] mismatchedNonceAssertion 10 defaultBiometricThreshold
      "tokF" = .error .NonceMismatch :=
  c6_nonce_mismatch_rejected [("L", samplePending)] mismatchedNonceAssertion 10
    defaultBiometricThreshold "tokF" samplePending (by decide) (by decide) (by decide)

/-! ### Claim C7: expired sessions reject step-up with SessionExpired -/

/-- C7: for every pending session whose `expires_at` lies strictly in the
past, a step-up attempt with matching nonce and sufficient numeric score
is rejected with `SessionExpired`; in particular (witness) an attempt 130
seconds after creation under the default 120-second TTL fails with
`SessionExpired`. -/
theorem c7_expired_session_rejected (db : Store) (a : Assertion) (now : Int)
    (thr q : ℚ) (tok : String) (s : Session)
    (h1 : getSessionByLoginId db a.login_id = some s) (h2 : s.status = .pending)
    (h3 : s.nonce = a.nonce) (h4 : a.score = some q) (h5 : thr ≤ q)
    (h6 : s.expires_at < now) :
    stepUp db a now thr tok = .error .SessionExpired := by
  simp [stepUp, stepUpChecks, h1, h2, h3, h6]

/-- Witness for C7: scenario D — session created at `t = 0` with the
default TTL 120s, step-up attempted at `t = 130` with score `0.9 ≥ 0.85`
and the right nonce. -/
theorem c7_expired_session_rejected_witness :
    stepUp [("L", samplePending)] sampleAssertion 130 defaultBiometricThreshold "tokF"
      = .error .SessionExpired :=
  c7_expired_session_rejected [("L", samplePending)] sampleAssertion 130
    defaultBiometricThreshold (mkRat 9 10) "tokF" samplePending (by decide) rfl rfl rfl
    (by decide) (by decide)

/-! ### Claim C8: threshold comparison on the production path -/

/-- C8: once the session checks pass, a non-numeric or below-threshold
score fails with `BiometricScoreTooLow` and no credential is issued, while
a numeric score at or above the threshold passes the check and the call
returns the minted credential (default threshold `0.85`; see witness). -/
theorem c8_threshold_decision (db : Store) (a : Assertion) (now : Int)
    (thr : ℚ) (tok : String) (s : Session)
    (h1 : getSessionByLoginId db a.login_id = some s) (h2 : s.status = .pending)
    (h3 : s.nonce = a.nonce) (h4 : ¬ s.expires_at < now) :
    (a.score = none → stepUp db a now thr tok = .error .BiometricScoreTooLow) ∧
    (∀ q, a.score = some q → q < thr →
      stepUp db a now thr tok = .error .BiometricScoreTooLow) ∧
    (∀ q, a.score = some q → thr ≤ q →
      stepUp db a now thr tok = .ok (tok, stepUpCompleteUpdate db a.login_id tok)) := by
  refine ⟨fun hq => ?_, fun q hq hlt => ?_, fun q hq hge => ?_⟩
  · simp [stepUp, stepUpChecks, h1, h2, h3, h4, hq]
  · simp [stepUp, stepUpChecks, h1, h2, h3, h4, hq, hlt]
  · simp [stepUp, stepUpChecks, stepUpFinish, h1, h2, h3, h4, hq, not_lt.mpr hge]

/-- Witness for C8 at the default threshold `0.85`: a non-numeric score, a
`0.6` score (scenario B) and a passing `0.9` score (scenario A). -/
theorem c8_threshold_decision_witness :
    stepUp [("L", samplePending)] nonNumericScoreAssertion 10 defaultBiometricThreshold
      "tokF" = .error .BiometricScoreTooLow ∧
    stepUp [("L", samplePending)] lowScoreAssertion 10 defaultBiometricThreshold "tokF"
      = .error .BiometricScoreTooLow ∧
    stepUp [("L", samplePending)] sampleAssertion 10 defaultBiometricThreshold "tokF"
      = .ok ("tokF", stepUpCompleteUpdate [("L", samplePending)] "L" "tokF") :=
  ⟨(c8_threshold_decision [("L", samplePending)] nonNumericScoreAssertion 10
      defaultBiometricThreshold "tokF" samplePending (by decide) rfl rfl (by decide)).1 rfl,
   (c8_threshold_decision [("L", samplePending)] lowScoreAssertion 10
      defaultBiometricThreshold "tokF" samplePending (by decide) rfl rfl (by decide)).2.1
     (mkRat 6 10) rfl (by decide),
   (c8_threshold_decision [("L", samplePending)] sampleAssertion 10
      defaultBiometricThreshold "tokF" samplePending (by decide) rfl rfl (by decide)).2.2
     (mkRat 9 10) rfl (by decide)⟩

/-! ### Claim C9: conditional access evaluation -/

/-- C9: access evaluation is a pure decision — `allowed` is true exactly
when the presented arc is at least the required level, the returned
required level is the one the lookup produces, and that level is the named
policy's configured value when one exists and the default `0.5`
otherwise. -/
theorem c9_evaluate_access_pure (policies : List (String × ℚ)) (userArc : ℚ)
    (resourceName : String) :
    ((evaluateAccess policies userArc resourceName).1 = true ↔
      getRequiredArcForResource policies resourceName ≤ userArc) ∧
    ((evaluateAccess policies userArc resourceName).2
      = getRequiredArcForResource policies resourceName) ∧
    (∀ q, (policies.find? (fun p => p.1 == resourceName)).map (fun p => p.2) = some q →
      getRequiredArcForResource policies resourceName = q) ∧
    ((policies.find? (fun p => p.1 == resourceName)).map (fun p => p.2) = none →
      getRequiredArcForResource policies resourceName = mkRat 1 2) := by
  refine ⟨?_, rfl, fun q hq => ?_, fun hq => ?_⟩
  · simp [evaluateAccess]
  · unfold getRequiredArcForResource
    rw [hq]
  · unfold getRequiredArcForResource
    rw [hq]

/-- Witness for C9: a configured policy of level `1`, an absent policy
falling back to `0.5`, and the comparison at a concrete arc. -/
theorem c9_evaluate_access_pure_witness :
    getRequiredArcForResource [("sensitive_api", 1)] "sensitive_api" = 1 ∧
    getRequiredArcForResource [] "transfer" = mkRat 1 2 ∧
    ((evaluateAccess [] (mkRat 1 2) "transfer").1 = true ↔
      getRequiredArcForResource [] "transfer" ≤ mkRat 1 2) :=
  ⟨(c9_evaluate_access_pure [("sensitive_api", 1)] (mkRat 1 2) "sensitive_api").2.2.1 1 rfl,
   (c9_evaluate_access_pure [] (mkRat 1 2) "transfer").2.2.2 rfl,
   (c9_evaluate_access_pure [] (mkRat 1 2) "transfer").1⟩

/-! ### Claim C10: custom claims override fixed claims in the final token -/

/-- C10: in `signFinalToken` the caller's `customClaims` are spread after
the fixed claims, so any custom key shadowing a fixed one (such as `arc`)
wins in the signed payload; in particular the dev path's final token
carries `arc = '2'` while the production path keeps the issuer's fixed
`arc = '1.0'`. -/
theorem c10_custom_claims_override :
    (∀ userId role jti custom k v, jsGet custom k = some v →
      jsGet (signFinalTokenPayload userId role jti custom) k = some v) ∧
    (∀ userId jti vid vat sc cf stc,
      jsGet (signFinalTokenPayload userId "user" jti
        (devFinalCustomClaims vid vat sc cf stc)) "arc" = some (.prim (.pstr "2"))) ∧
    (∀ userId role jti vid vat sc,
      jsGet (signFinalTokenPayload userId role jti
        (prodFinalCustomClaims vid vat sc)) "arc" = some (.prim (.pstr "1.0"))) := by
  refine ⟨fun userId role jti custom k v h => ?_, fun _ _ _ _ _ _ stc => ?_, fun _ _ _ _ _ _ => ?_⟩
  · unfold jsGet signFinalTokenPayload
    unfold jsGet at h
    obtain ⟨p, hp, hv⟩ := Option.map_eq_some'.mp h
    rw [List.reverse_append, List.find?_append, hp]
    simpa using hv
  · cases stc <;> rfl
  · rfl

/-- Witness for C10: a concrete custom-claims bag overriding `arc`. -/
theorem c10_custom_claims_override_witness :
    jsGet (signFinalTokenPayload "u1" "user" "jti1" [("arc", .prim (.pstr "2"))]) "arc"
      = some (.prim (.pstr "2")) :=
  c10_custom_claims_override.1 "u1" "user" "jti1" [("arc", .prim (.pstr "2"))] "arc"
    (.prim (.pstr "2")) rfl

end MFA
